import Mathlib

/-!
# Verification of the recycle-counter-api frame-to-count pipeline

Shallow embedding of `src/main.py` (the FastAPI bottle-detection server):
the brand-count dictionary operations of `update_in_transaction`, the
confidence filter and `Counter` aggregation of `process_image_frame`, the
lazy model loader `get_model`, and the request handler's control flow.
Python dicts are modelled as association lists with the same first-match
lookup and in-place update semantics; floats appearing only in the exact
comparison against the 0.25 threshold are modelled as rationals; integers
are unbounded as in Python.
-/

set_option autoImplicit false

namespace RecycleCounter

/-- A Python `dict[str, int]`, as an association list in insertion order. -/
abbrev BrandMap := List (String × Nat)

/-- `m.get(k, 0)`: value of the first entry with key `k`, or `0` if absent. -/
def lookupD : BrandMap → String → Nat
  | [], _ => 0
  | (k', v) :: rest, k => if k' = k then v else lookupD rest k

/-- `m[k] = v`: replace the value of the first entry with key `k`,
or append a new entry if the key is absent (Python dict assignment). -/
def setKey : BrandMap → String → Nat → BrandMap
  | [], k, v => [(k, v)]
  | (k', v') :: rest, k, v =>
    if k' = k then (k', v) :: rest else (k', v') :: setKey rest k v

/-- The keys of the map, in order. -/
def keys (m : BrandMap) : List String := m.map Prod.fst

/-- `sum(m.values())`. -/
def sumValues (m : BrandMap) : Nat := (m.map Prod.snd).sum

/-- The merge loop of `update_in_transaction` (src/main.py:139-140):
`for brand, count in brand_counts.items(): current[brand] = current.get(brand, 0) + count`. -/
def mergeBrands (current frame : BrandMap) : BrandMap :=
  frame.foldl (fun cur p => setKey cur p.1 (lookupD cur p.1 + p.2)) current

@[simp] theorem lookupD_nil (k : String) : lookupD [] k = 0 := rfl

@[simp] theorem lookupD_cons (k' : String) (v : Nat) (rest : BrandMap) (k : String) :
    lookupD ((k', v) :: rest) k = if k' = k then v else lookupD rest k := rfl

@[simp] theorem keys_nil : keys [] = [] := rfl

@[simp] theorem keys_cons (p : String × Nat) (rest : BrandMap) :
    keys (p :: rest) = p.1 :: keys rest := rfl

@[simp] theorem sumValues_nil : sumValues [] = 0 := rfl

@[simp] theorem sumValues_cons (p : String × Nat) (rest : BrandMap) :
    sumValues (p :: rest) = p.2 + sumValues rest := rfl

theorem lookupD_setKey_self (m : BrandMap) (k : String) (v : Nat) :
    lookupD (setKey m k v) k = v := by
  induction m with
  | nil => simp [setKey]
  | cons p rest ih =>
    obtain ⟨k', v'⟩ := p
    by_cases h : k' = k
    · simp [setKey, h]
    · simp [setKey, h, ih]

theorem lookupD_setKey_ne (m : BrandMap) (k k' : String) (v : Nat) (h : k ≠ k') :
    lookupD (setKey m k v) k' = lookupD m k' := by
  induction m with
  | nil => simp [setKey, h]
  | cons p rest ih =>
    obtain ⟨a, b⟩ := p
    by_cases ha : a = k
    · subst ha
      simp [setKey, h]
    · simp [setKey, ha, ih]

theorem keys_setKey_subset (m : BrandMap) (k k' : String) (v : Nat)
    (h : k' ∈ keys (setKey m k v)) : k' ∈ keys m ∨ k' = k := by
  induction m with
  | nil => simpa [setKey] using h
  | cons p rest ih =>
    obtain ⟨a, b⟩ := p
    by_cases ha : a = k
    · subst ha
      simp [setKey] at h ⊢
      tauto
    · simp only [setKey, if_neg ha, keys_cons, List.mem_cons] at h ⊢
      rcases h with h | h
      · exact Or.inl (Or.inl h)
      · rcases ih h with h' | h'
        · exact Or.inl (Or.inr h')
        · exact Or.inr h'

theorem nodup_keys_setKey (m : BrandMap) (k : String) (v : Nat)
    (h : (keys m).Nodup) : (keys (setKey m k v)).Nodup := by
  induction m with
  | nil => simp [setKey]
  | cons p rest ih =>
    obtain ⟨a, b⟩ := p
    simp only [keys_cons, List.nodup_cons] at h
    by_cases ha : a = k
    · subst ha
      simpa [setKey] using h
    · simp only [setKey, if_neg ha, keys_cons, List.nodup_cons]
      refine ⟨fun hmem => ?_, ih h.2⟩
      rcases keys_setKey_subset rest k a v hmem with h' | h'
      · exact h.1 h'
      · exact ha h'

theorem sumValues_setKey_add (m : BrandMap) (k : String) (c : Nat) :
    sumValues (setKey m k (lookupD m k + c)) = sumValues m + c := by
  induction m with
  | nil => simp [setKey]
  | cons p rest ih =>
    obtain ⟨a, b⟩ := p
    by_cases ha : a = k
    · subst ha
      simp [setKey]
      omega
    · simp [setKey, ha, ih]
      omega

/-- Merging adds the frame's value total to the document's value total. -/
theorem sumValues_mergeBrands (frame current : BrandMap) :
    sumValues (mergeBrands current frame) = sumValues current + sumValues frame := by
  induction frame generalizing current with
  | nil => simp [mergeBrands]
  | cons p rest ih =>
    obtain ⟨b, c⟩ := p
    show sumValues (mergeBrands (setKey current b (lookupD current b + c)) rest) = _
    rw [ih, sumValues_setKey_add]
    simp
    omega

theorem lookupD_mergeBrands_not_mem (frame current : BrandMap) (k : String)
    (h : k ∉ keys frame) :
    lookupD (mergeBrands current frame) k = lookupD current k := by
  induction frame generalizing current with
  | nil => rfl
  | cons p rest ih =>
    obtain ⟨b, c⟩ := p
    simp only [keys_cons, List.mem_cons, not_or] at h
    show lookupD (mergeBrands (setKey current b (lookupD current b + c)) rest) k = _
    rw [ih _ h.2, lookupD_setKey_ne _ _ _ _ (fun hb => h.1 hb.symm)]

/-- For every key of the frame map, the merged map holds the old count
(0 when absent) plus the frame's count, provided the frame map has no
duplicate keys (true of every Python dict). -/
theorem lookupD_mergeBrands_mem (frame current : BrandMap) (k : String)
    (hnd : (keys frame).Nodup) (h : k ∈ keys frame) :
    lookupD (mergeBrands current frame) k = lookupD current k + lookupD frame k := by
  induction frame generalizing current with
  | nil => simp at h
  | cons p rest ih =>
    obtain ⟨b, c⟩ := p
    simp only [keys_cons, List.nodup_cons] at hnd
    show lookupD (mergeBrands (setKey current b (lookupD current b + c)) rest) k = _
    by_cases hk : k = b
    · subst hk
      rw [lookupD_mergeBrands_not_mem _ _ _ hnd.1, lookupD_setKey_self]
      simp
    · simp only [keys_cons, List.mem_cons] at h
      rcases h with h | h
      · exact absurd h.symm (fun hh => hk hh.symm)
      · rw [ih _ hnd.2 h, lookupD_setKey_ne _ _ _ _ (fun hb => hk hb.symm)]
        rw [lookupD_cons, if_neg (fun hh : b = k => hk hh.symm)]

/-- `collections.Counter(detected_brands)` (src/main.py:131): fold the label
list into a label-to-occurrence-count map. -/
def counter (l : List String) : BrandMap :=
  l.foldl (fun acc s => setKey acc s (lookupD acc s + 1)) []

theorem lookupD_counterAux (l : List String) :
    ∀ (acc : BrandMap) (s : String),
      lookupD (l.foldl (fun acc s => setKey acc s (lookupD acc s + 1)) acc) s
        = lookupD acc s + l.count s := by
  induction l with
  | nil => simp
  | cons a l ih =>
    intro acc s
    show lookupD (l.foldl _ (setKey acc a (lookupD acc a + 1))) s = _
    rw [ih]
    by_cases hs : s = a
    · subst hs
      rw [lookupD_setKey_self, List.count_cons_self]
      omega
    · rw [lookupD_setKey_ne _ _ _ _ (fun h => hs h.symm),
        List.count_cons_of_ne hs]

/-- The count map built by `Counter` assigns each label its number of
occurrences in the input list. -/
theorem lookupD_counter (l : List String) (s : String) :
    lookupD (counter l) s = l.count s := by
  simpa using lookupD_counterAux l [] s

theorem sumValues_counterAux (l : List String) :
    ∀ acc : BrandMap,
      sumValues (l.foldl (fun acc s => setKey acc s (lookupD acc s + 1)) acc)
        = sumValues acc + l.length := by
  induction l with
  | nil => simp
  | cons a l ih =>
    intro acc
    show sumValues (l.foldl _ (setKey acc a (lookupD acc a + 1))) = _
    rw [ih, sumValues_setKey_add]
    simp
    omega

/-- The counts in the `Counter` map total the length of the input list:
every listed label contributes exactly one occurrence. -/
theorem sumValues_counter (l : List String) :
    sumValues (counter l) = l.length := by
  simpa using sumValues_counterAux l []

theorem nodup_keys_counterAux (l : List String) :
    ∀ acc : BrandMap, (keys acc).Nodup →
      (keys (l.foldl (fun acc s => setKey acc s (lookupD acc s + 1)) acc)).Nodup := by
  induction l with
  | nil => intro acc h; simpa using h
  | cons a l ih =>
    intro acc h
    exact ih _ (nodup_keys_setKey _ _ _ h)

/-- A `Counter` map never has duplicate keys. -/
theorem nodup_keys_counter (l : List String) : (keys (counter l)).Nodup :=
  nodup_keys_counterAux l [] (by simp)

/-- One detection row as consumed by the collection loop
(src/main.py:118-124): the loop reads only `box[4]` (confidence, a float
compared exactly against 0.25, modelled as a rational) and `box[5]`
(class id, a Python int); the four box coordinates are never read. -/
structure Detection where
  conf : ℚ
  classId : ℤ
deriving DecidableEq, Repr

/-- `r.names.get(class_id, str(class_id))` (src/main.py:123): the model's
label table as an association list; an absent index falls back to its
stringified value. -/
def namesGet : List (ℤ × String) → ℤ → String
  | [], c => toString c
  | (i, s) :: rest, c => if i = c then s else namesGet rest c

/-- The detection collection loop (src/main.py:118-124): keep a detection's
brand name exactly when its confidence is at least 0.25, in order. -/
def collectBrands (names : List (ℤ × String)) : List Detection → List String
  | [] => []
  | d :: rest =>
    if (0.25 : ℚ) ≤ d.conf then
      namesGet names d.classId :: collectBrands names rest
    else
      collectBrands names rest

/-- The collection loop is the filter of the detections at the 0.25
threshold followed by the label-table mapping. -/
theorem collectBrands_eq_filter_map (names : List (ℤ × String)) (dets : List Detection) :
    collectBrands names dets
      = (dets.filter (fun d => (0.25 : ℚ) ≤ d.conf)).map
          (fun d => namesGet names d.classId) := by
  induction dets with
  | nil => rfl
  | cons d rest ih =>
    by_cases h : (0.25 : ℚ) ≤ d.conf
    · simp [collectBrands, List.filter_cons, h, ih]
    · simp [collectBrands, List.filter_cons, h, ih]

/-- The Cumulative Count Document `bottle_counts/live_counts` as written by
`update_in_transaction` (src/main.py:142-150): server timestamp (modelled
abstractly as a Nat), `total_bottles`, and the `brands` map. -/
structure CountDoc where
  timestamp : Nat
  total_bottles : Nat
  brands : BrandMap
deriving DecidableEq, Repr

/-- `update_in_transaction` (src/main.py:135-150): read the snapshot's
`brands` map (empty when the document does not exist), fold the per-frame
counts into it, and write back a full document whose `total_bottles` is
recomputed as the sum of the merged map's values. -/
def update_in_transaction (snapshot : Option CountDoc) (brand_counts : BrandMap)
    (now : Nat) : CountDoc :=
  let current_brands := match snapshot with
    | some doc => doc.brands
    | none => []
  let merged := mergeBrands current_brands brand_counts
  { timestamp := now, total_bottles := sumValues merged, brands := merged }

/-- The document states the merge operation can produce, starting from an
absent document: every write of the system goes through
`update_in_transaction`, either on a missing snapshot or on a previously
written one. -/
inductive ReachableDoc : CountDoc → Prop where
  | first (brand_counts : BrandMap) (now : Nat) :
      ReachableDoc (update_in_transaction none brand_counts now)
  | step (doc : CountDoc) (brand_counts : BrandMap) (now : Nat) :
      ReachableDoc doc →
      ReachableDoc (update_in_transaction (some doc) brand_counts now)

/-- A decoded image (`cv2.imdecode` result), opaque to the handler. -/
structure Image where
  id : Nat
deriving DecidableEq, Repr

/-- The loaded YOLO model: its label table `names` and its inference
function, both opaque to the handler. -/
structure Model where
  names : List (ℤ × String)
  infer : Image → List Detection

/-- `get_model` (src/main.py:55-68): return the cached model if present;
otherwise attempt the load. On success cache and return the model; on
failure raise HTTP 500 with detail prefixed `Model loading failed: ` and
leave the cache unset (`_model` is only assigned on success). The result
pairs the outcome (the model, or the 500 detail string) with the new
cache state. -/
def get_model (loadResult : Except String Model) :
    Option Model → Except String Model × Option Model
  | some m => (.ok m, some m)
  | none =>
    match loadResult with
    | .ok m => (.ok m, some m)
    | .error e => (.error ("Model loading failed: " ++ e), none)

/-- The JSON bodies `process_image_frame` can answer with: an
`HTTPException` (status code and detail), or a success body carrying the
message and, when present, the `detected_brands` per-frame count map. -/
inductive HandlerResult where
  | httpError (status : Nat) (detail : String)
  | success (message : String) (detected_brands : Option BrandMap)
deriving DecidableEq, Repr

/-- The process environment of one request: the configured `API_KEY`, the
Firestore handle (`db is not None`), the byte decoder
(`np.frombuffer` + `cv2.imdecode`, `none` when the bytes do not decode),
the outcome `YOLO(_model_path)` would have, the outcome the Firestore
transaction commit would have (`none` = success, `some e` = raised `e`),
and the server-assigned write time. -/
structure Env where
  api_key : String
  dbConnected : Bool
  decode : List Nat → Option Image
  loadResult : Except String Model
  commit : Option String
  now : Nat

/-- One HTTP request to `POST /process-frame/`: the `X-API-KEY` header (or
`none` when absent) and the uploaded file's bytes. -/
structure Request where
  apiKeyHeader : Option String
  body : List Nat

/-- `process_image_frame` (src/main.py:87-160) together with its
`verify_api_key` dependency (src/main.py:25-28) and FastAPI's
`APIKeyHeader(auto_error=True)` (src/main.py:23), which rejects a request
with no `X-API-KEY` header with HTTP 403 and detail `Not authenticated`
before the dependency runs. Order, as in the source: header presence,
key comparison, `db is None` check, decode, lazy model load, inference,
threshold collection, empty short-circuit, `Counter`, transactional merge.
Returns the response, the model cache after the request, and the stored
document after the request. -/
def process_image_frame (env : Env) (cache : Option Model) (req : Request)
    (store : Option CountDoc) :
    HandlerResult × Option Model × Option CountDoc :=
  match req.apiKeyHeader with
  | none => (.httpError 403 "Not authenticated", cache, store)
  | some api_key =>
    if api_key = env.api_key then
      if env.dbConnected then
        match env.decode req.body with
        | none =>
          (.httpError 400 "Invalid image format: Could not decode image.", cache, store)
        | some image =>
          match get_model env.loadResult cache with
          | (.error detail, cache2) => (.httpError 500 detail, cache2, store)
          | (.ok model, cache2) =>
            let detected_brands := collectBrands model.names (model.infer image)
            if detected_brands = [] then
              (.success "No bottles detected in the frame." none, cache2, store)
            else
              let brand_counts := counter detected_brands
              match env.commit with
              | some e =>
                (.httpError 500 ("Firestore update failed: " ++ e), cache2, store)
              | none =>
                (.success "Frame processed and counts updated in Firestore."
                    (some brand_counts),
                  cache2,
                  some (update_in_transaction store brand_counts env.now))
      else (.httpError 500 "Firestore is not connected", cache, store)
    else (.httpError 403 "Could not validate credentials", cache, store)

theorem namesGet_eq_toString (names : List (ℤ × String)) (c : ℤ)
    (h : ∀ p ∈ names, p.1 ≠ c) : namesGet names c = toString c := by
  induction names with
  | nil => rfl
  | cons p rest ih =>
    obtain ⟨i, s⟩ := p
    have hi : i ≠ c := h (i, s) (List.mem_cons_self _ _)
    simp only [namesGet, if_neg hi]
    exact ih (fun q hq => h q (List.mem_cons_of_mem _ hq))

/-- C1: merging a non-empty per-frame count map into a pre-existing
cumulative document (one whose `total_bottles` is, per the data model, the
sum of its `brands` values) yields a document where each frame label's
count is the previous count (0 if absent) plus the frame's count, and
`total_bottles` is the previous total plus the sum of the frame's
per-label counts. -/
theorem claim_C1_merge_adds_counts (doc : CountDoc) (brand_counts : BrandMap)
    (now : Nat)
    (hinv : doc.total_bottles = sumValues doc.brands)
    (hnd : (keys brand_counts).Nodup)
    (_hne : brand_counts ≠ []) :
    (∀ label ∈ keys brand_counts,
      lookupD (update_in_transaction (some doc) brand_counts now).brands label
        = lookupD doc.brands label + lookupD brand_counts label) ∧
    (update_in_transaction (some doc) brand_counts now).total_bottles
      = doc.total_bottles + sumValues brand_counts := by
  constructor
  · intro label hl
    exact lookupD_mergeBrands_mem brand_counts doc.brands label hnd hl
  · show sumValues (mergeBrands doc.brands brand_counts) = _
    rw [sumValues_mergeBrands, hinv]

theorem claim_C1_merge_adds_counts_witness :
    lookupD (update_in_transaction
        (some { timestamp := 0, total_bottles := 3, brands := [("a", 2), ("b", 1)] })
        [("a", 1), ("x", 4)] 7).brands "a"
      = lookupD [("a", 2), ("b", 1)] "a" + lookupD [("a", 1), ("x", 4)] "a" ∧
    (update_in_transaction
        (some { timestamp := 0, total_bottles := 3, brands := [("a", 2), ("b", 1)] })
        [("a", 1), ("x", 4)] 7).total_bottles
      = 3 + sumValues [("a", 1), ("x", 4)] :=
  ⟨(claim_C1_merge_adds_counts
        { timestamp := 0, total_bottles := 3, brands := [("a", 2), ("b", 1)] }
        [("a", 1), ("x", 4)] 7 (by decide) (by decide) (by decide)).1
      "a" (by decide),
   (claim_C1_merge_adds_counts
        { timestamp := 0, total_bottles := 3, brands := [("a", 2), ("b", 1)] }
        [("a", 1), ("x", 4)] 7 (by decide) (by decide) (by decide)).2⟩

/-- C2: every document the merge operation can have written — starting
from an absent document and applying `update_in_transaction` any number of
times — has `total_bottles` equal to the sum of the values of `brands`,
because the total is recomputed from the merged map inside the same
write. -/
theorem claim_C2_total_invariant (doc : CountDoc) (h : ReachableDoc doc) :
    doc.total_bottles = sumValues doc.brands := by
  induction h with
  | first brand_counts now => rfl
  | step d brand_counts now _ _ => rfl

theorem claim_C2_total_invariant_witness :
    (update_in_transaction (some (update_in_transaction none [("a", 2)] 5))
        [("a", 1), ("b", 3)] 9).total_bottles
      = sumValues (update_in_transaction (some (update_in_transaction none [("a", 2)] 5))
          [("a", 1), ("b", 3)] 9).brands :=
  claim_C2_total_invariant _
    (ReachableDoc.step _ [("a", 1), ("b", 3)] 9 (ReachableDoc.first [("a", 2)] 5))

/-- C3: the per-frame count map is exactly the label-occurrence count of
the detections whose confidence is at least 0.25: a detection below the
threshold contributes to neither the response's `detected_brands` map nor
the merged store update (both are built from this map), and every
detection at or above it is counted. -/
theorem claim_C3_threshold_filter (names : List (ℤ × String))
    (dets : List Detection) (label : String) :
    lookupD (counter (collectBrands names dets)) label
      = ((dets.filter (fun d => (0.25 : ℚ) ≤ d.conf)).map
          (fun d => namesGet names d.classId)).count label := by
  rw [lookupD_counter, collectBrands_eq_filter_map]

/-- A concrete decoded image for witnesses. -/
def sampleImage : Image := { id := 0 }

/-- A concrete model whose only detection falls below the 0.25 threshold. -/
def sampleNoDetModel : Model :=
  { names := [(0, "BrandA")], infer := fun _ => [{ conf := 0.1, classId := 0 }] }

/-- A concrete healthy environment: decoding succeeds, the model load
would succeed with `sampleNoDetModel`, the store commit would succeed. -/
def envOk : Env :=
  { api_key := "secret", dbConnected := true, decode := fun _ => some sampleImage,
    loadResult := .ok sampleNoDetModel, commit := none, now := 7 }

/-- A concrete environment whose uploaded bytes never decode. -/
def envBadImage : Env :=
  { api_key := "secret", dbConnected := true, decode := fun _ => none,
    loadResult := .ok sampleNoDetModel, commit := none, now := 7 }

/-- A concrete environment in which the model load fails. -/
def envLoadFail : Env :=
  { api_key := "secret", dbConnected := true, decode := fun _ => some sampleImage,
    loadResult := .error "weights missing", commit := none, now := 7 }

/-- A concrete environment in which Firestore failed to initialize. -/
def envNoDb : Env :=
  { api_key := "secret", dbConnected := false, decode := fun _ => some sampleImage,
    loadResult := .ok sampleNoDetModel, commit := none, now := 7 }

/-- C4: when the filtered detection list is empty, the handler answers
with the success outcome whose message is `No bottles detected in the
frame.` and carries no `detected_brands`, and it performs no store write:
the stored document, timestamp included, is exactly the one before the
request. -/
theorem claim_C4_no_detections_no_write (env : Env) (cache cache2 : Option Model)
    (req : Request) (store : Option CountDoc) (image : Image) (model : Model)
    (hk : req.apiKeyHeader = some env.api_key)
    (hdb : env.dbConnected = true)
    (hdec : env.decode req.body = some image)
    (hm : get_model env.loadResult cache = (.ok model, cache2))
    (hempty : collectBrands model.names (model.infer image) = []) :
    process_image_frame env cache req store
      = (.success "No bottles detected in the frame." none, cache2, store) := by
  simp [process_image_frame, hk, hdb, hdec, hm, hempty]

theorem claim_C4_no_detections_no_write_witness :
    process_image_frame envOk (some sampleNoDetModel)
        { apiKeyHeader := some "secret", body := [1, 2, 3] }
        (some { timestamp := 1, total_bottles := 2, brands := [("a", 2)] })
      = (.success "No bottles detected in the frame." none, some sampleNoDetModel,
          some { timestamp := 1, total_bottles := 2, brands := [("a", 2)] }) :=
  claim_C4_no_detections_no_write envOk (some sampleNoDetModel) (some sampleNoDetModel)
    { apiKeyHeader := some "secret", body := [1, 2, 3] }
    (some { timestamp := 1, total_bottles := 2, brands := [("a", 2)] })
    sampleImage sampleNoDetModel rfl rfl rfl rfl
    (by norm_num [sampleNoDetModel, sampleImage, collectBrands])

/-- C5 counterexample: a request with no `X-API-KEY` header is rejected by
FastAPI's `APIKeyHeader(auto_error=True)` with HTTP 403 and detail
`Not authenticated`, which is not the detail `Could not validate
credentials` the claim states for the missing-header case. -/
theorem claim_C5_counterexample :
    (process_image_frame envOk none { apiKeyHeader := none, body := [1] } none).1
      = .httpError 403 "Not authenticated" ∧
    HandlerResult.httpError 403 "Not authenticated"
      ≠ HandlerResult.httpError 403 "Could not validate credentials" :=
  ⟨rfl, by decide⟩

/-- C5 (amended): a request whose `X-API-KEY` header is missing terminates
with HTTP 403 and detail `Not authenticated`, and one whose header does
not exactly match the configured secret terminates with HTTP 403 and
detail `Could not validate credentials`; in both cases this happens for
every environment and body — the decoder, the model and the store are
never consulted — and the store and model cache are unchanged. -/
theorem claim_C5_amended_auth_reject (env : Env) (cache : Option Model)
    (req : Request) (store : Option CountDoc) :
    (req.apiKeyHeader = none →
      process_image_frame env cache req store
        = (.httpError 403 "Not authenticated", cache, store)) ∧
    (∀ k, req.apiKeyHeader = some k → k ≠ env.api_key →
      process_image_frame env cache req store
        = (.httpError 403 "Could not validate credentials", cache, store)) := by
  constructor
  · intro h
    simp [process_image_frame, h]
  · intro k hk hne
    simp [process_image_frame, hk, hne]

theorem claim_C5_amended_auth_reject_witness :
    process_image_frame envOk none { apiKeyHeader := none, body := [1] } none
      = (.httpError 403 "Not authenticated", none, none) ∧
    process_image_frame envOk none { apiKeyHeader := some "wrong", body := [1] } none
      = (.httpError 403 "Could not validate credentials", none, none) :=
  ⟨(claim_C5_amended_auth_reject envOk none
        { apiKeyHeader := none, body := [1] } none).1 rfl,
   (claim_C5_amended_auth_reject envOk none
        { apiKeyHeader := some "wrong", body := [1] } none).2 "wrong" rfl (by decide)⟩

/-- C6: when the uploaded bytes do not decode to an image (empty,
truncated, or unrecognized format — the decoder yields nothing), the
handler fails with HTTP 400 whose detail begins with
`Invalid image format:`, and the store is not mutated. -/
theorem claim_C6_invalid_image_400 (env : Env) (cache : Option Model)
    (req : Request) (store : Option CountDoc)
    (hk : req.apiKeyHeader = some env.api_key)
    (hdb : env.dbConnected = true)
    (hdec : env.decode req.body = none) :
    process_image_frame env cache req store
      = (.httpError 400 "Invalid image format: Could not decode image.", cache, store) ∧
    ∃ rest, "Invalid image format: Could not decode image."
      = "Invalid image format:" ++ rest := by
  refine ⟨?_, " Could not decode image.", rfl⟩
  simp [process_image_frame, hk, hdb, hdec]

theorem claim_C6_invalid_image_400_witness :
    process_image_frame envBadImage none { apiKeyHeader := some "secret", body := [] }
        (some { timestamp := 1, total_bottles := 2, brands := [("a", 2)] })
      = (.httpError 400 "Invalid image format: Could not decode image.", none,
          some { timestamp := 1, total_bottles := 2, brands := [("a", 2)] }) ∧
    ∃ rest, "Invalid image format: Could not decode image."
      = "Invalid image format:" ++ rest :=
  claim_C6_invalid_image_400 envBadImage none
    { apiKeyHeader := some "secret", body := [] }
    (some { timestamp := 1, total_bottles := 2, brands := [("a", 2)] })
    rfl rfl rfl

/-- C7: a detection whose class index is absent from the model's label
table is mapped to the stringified index rather than dropped, and every
surviving detection contributes exactly one occurrence: the count map's
values total the number of detections at or above the 0.25 threshold. -/
theorem claim_C7_unknown_label_fallback (names : List (ℤ × String)) (classId : ℤ)
    (dets : List Detection)
    (h : ∀ p ∈ names, p.1 ≠ classId) :
    namesGet names classId = toString classId ∧
    sumValues (counter (collectBrands names dets))
      = (dets.filter (fun d => (0.25 : ℚ) ≤ d.conf)).length := by
  refine ⟨namesGet_eq_toString names classId h, ?_⟩
  rw [sumValues_counter, collectBrands_eq_filter_map, List.length_map]

theorem claim_C7_unknown_label_fallback_witness :
    namesGet [(0, "BrandA")] 5 = toString (5 : ℤ) ∧
    sumValues (counter (collectBrands [(0, "BrandA")]
        [{ conf := 0.9, classId := 5 }, { conf := 0.1, classId := 0 }]))
      = (([{ conf := 0.9, classId := 5 }, { conf := 0.1, classId := 0 }] :
          List Detection).filter (fun d => (0.25 : ℚ) ≤ d.conf)).length :=
  claim_C7_unknown_label_fallback [(0, "BrandA")] 5
    [{ conf := 0.9, classId := 5 }, { conf := 0.1, classId := 0 }] (by decide)

/-- C8: when the cache is unset and the load fails, the request terminates
with HTTP 500 whose detail begins with `Model loading failed:` (the
exception is converted to a response, the process does not crash), the
cache stays unset and the store is untouched; a later call with an unset
cache re-attempts the load and succeeds when the load does; and once a
model is cached, every call returns it without consulting the loader. -/
theorem claim_C8_model_load_failure (env : Env) (cache : Option Model)
    (req : Request) (store : Option CountDoc) (image : Image) (e : String)
    (hk : req.apiKeyHeader = some env.api_key)
    (hdb : env.dbConnected = true)
    (hdec : env.decode req.body = some image)
    (hcache : cache = none)
    (hload : env.loadResult = .error e) :
    (process_image_frame env cache req store
      = (.httpError 500 ("Model loading failed: " ++ e), none, store)) ∧
    (∃ rest, "Model loading failed: " ++ e = "Model loading failed:" ++ rest) ∧
    (∀ m : Model, get_model (.ok m) none = (.ok m, some m)) ∧
    (∀ (load : Except String Model) (m : Model),
      get_model load (some m) = (.ok m, some m)) := by
  refine ⟨?_, ⟨" " ++ e, by rw [← String.append_assoc]; rfl⟩,
    fun m => rfl, fun load m => rfl⟩
  subst hcache
  simp [process_image_frame, hk, hdb, hdec, hload, get_model]

theorem claim_C8_model_load_failure_witness :
    process_image_frame envLoadFail none
        { apiKeyHeader := some "secret", body := [1] } none
      = (.httpError 500 ("Model loading failed: " ++ "weights missing"), none, none) ∧
    get_model (.ok sampleNoDetModel) none
      = (.ok sampleNoDetModel, some sampleNoDetModel) ∧
    get_model (.error "x") (some sampleNoDetModel)
      = (.ok sampleNoDetModel, some sampleNoDetModel) :=
  ⟨(claim_C8_model_load_failure envLoadFail none
      { apiKeyHeader := some "secret", body := [1] } none sampleImage
      "weights missing" rfl rfl rfl rfl rfl).1,
   (claim_C8_model_load_failure envLoadFail none
      { apiKeyHeader := some "secret", body := [1] } none sampleImage
      "weights missing" rfl rfl rfl rfl rfl).2.2.1 sampleNoDetModel,
   (claim_C8_model_load_failure envLoadFail none
      { apiKeyHeader := some "secret", body := [1] } none sampleImage
      "weights missing" rfl rfl rfl rfl rfl).2.2.2 (.error "x") sampleNoDetModel⟩

/-- C10: when the Firestore client failed to initialize, every
authenticated request answers HTTP 500 with detail `Firestore is not
connected` and leaves the store untouched, and the outcome is the same
for every body, decoder and model loader — the check precedes all image
processing. -/
theorem claim_C10_firestore_not_connected (env : Env) (cache : Option Model)
    (req : Request) (store : Option CountDoc)
    (hk : req.apiKeyHeader = some env.api_key)
    (hdb : env.dbConnected = false) :
    process_image_frame env cache req store
      = (.httpError 500 "Firestore is not connected", cache, store) ∧
    (∀ (body2 : List Nat) (dec2 : List Nat → Option Image)
        (load2 : Except String Model),
      process_image_frame { env with decode := dec2, loadResult := load2 } cache
          { req with body := body2 } store
        = (.httpError 500 "Firestore is not connected", cache, store)) := by
  constructor
  · simp [process_image_frame, hk, hdb]
  · intro body2 dec2 load2
    simp [process_image_frame, hk, hdb]

theorem claim_C10_firestore_not_connected_witness :
    process_image_frame envNoDb none
        { apiKeyHeader := some "secret", body := [1, 2] }
        (some { timestamp := 1, total_bottles := 2, brands := [("a", 2)] })
      = (.httpError 500 "Firestore is not connected", none,
          some { timestamp := 1, total_bottles := 2, brands := [("a", 2)] }) ∧
    process_image_frame { envNoDb with decode := fun _ => none, loadResult := .error "x" }
        none { apiKeyHeader := some "secret", body := [] }
        (some { timestamp := 1, total_bottles := 2, brands := [("a", 2)] })
      = (.httpError 500 "Firestore is not connected", none,
          some { timestamp := 1, total_bottles := 2, brands := [("a", 2)] }) :=
  ⟨(claim_C10_firestore_not_connected envNoDb none
      { apiKeyHeader := some "secret", body := [1, 2] }
      (some { timestamp := 1, total_bottles := 2, brands := [("a", 2)] }) rfl rfl).1,
   (claim_C10_firestore_not_connected envNoDb none
      { apiKeyHeader := some "secret", body := [1, 2] }
      (some { timestamp := 1, total_bottles := 2, brands := [("a", 2)] }) rfl rfl).2
     [] (fun _ => none) (.error "x")⟩

end RecycleCounter
